import Mathlib

/-!
Verification of the connect-redis session-store adapter.

The development shallowly embeds the current revision of `src/lib/index.ts`
(the class factory `connectRedis`, whose store methods communicate with the
backend through `__sendCommand`).  Stateful code is modelled by explicit
passing of the backend responses: every store operation is a pure function
from its inputs and the backend replies to the list of backend commands it
issues and to the value delivered to its callback.
-/

/-- A command sent to the Redis-like backend.  `setCmd key value ex` models
`SET key value` (with `EX ttl` when `ex = some ttl`), `delCmd keys` models
`DEL key...`, and `expireCmd key ttl` models `EXPIRE key ttl`. -/
inductive RCmd where
  | setCmd : String → String → Option Int → RCmd
  | delCmd : List String → RCmd
  | expireCmd : String → Int → RCmd
  deriving DecidableEq

/-- The TTL arguments a single backend command carries, used to state the
TTL invariant. -/
def cmdTTLs : RCmd → List Int
  | RCmd.setCmd _ _ (some t) => [t]
  | RCmd.setCmd _ _ none => []
  | RCmd.delCmd _ => []
  | RCmd.expireCmd _ t => [t]

/-- The adapter configuration after construction, embedding the fields
assigned by the `RedisStore` constructor (`this.prefix`, `this.ttl`,
`this.disableTTL`, `this.disableTouch`). -/
structure StoreCfg where
  keyPrefix : String
  ttl : Int
  disableTTL : Bool
  disableTouch : Bool
  deriving DecidableEq

/-- The constructor options; `none` models an absent (undefined) option. -/
structure StoreOptions where
  keyPrefix : Option String
  ttl : Option Int
  disableTTL : Option Bool
  disableTouch : Option Bool

/-- Embedding of the `RedisStore` constructor:
`this.prefix = typeof prefix === "string" ? prefix : "sess:"`,
`this.ttl = ttl || 24 * 60 * 60` (a supplied `0` is falsy and falls back to
the default), `this.disableTTL = disableTTL || false`,
`this.disableTouch = disableTouch || false`. -/
def mkStore (o : StoreOptions) : StoreCfg where
  keyPrefix := match o.keyPrefix with | some p => p | none => "sess:"
  ttl := match o.ttl with | some t => if t = 0 then 86400 else t | none => 86400
  disableTTL := o.disableTTL.getD false
  disableTouch := o.disableTouch.getD false

/-- A session value: an optional `cookie.expires` timestamp (milliseconds
since the epoch, `none` when the session carries no expiry) together with
opaque payload data. -/
structure Session (α : Type) where
  expires : Option Int
  data : α
  deriving DecidableEq

/-- A serializer with `stringify` and `parse`, as configured on the store. -/
structure Serializer (α : Type) where
  stringify : Session α → String
  parse : String → Session α

/-- Ceiling division for integers (`Math.ceil(a / b)` for a positive
divisor `b`), via floor division of the negation. -/
def ceilDiv (a b : Int) : Int := -(Int.fdiv (-a) b)

/-- Embedding of `__getTTL`: when the session carries `cookie.expires`, the
TTL is `Math.ceil((Number(expires) - Date.now()) / 1000)`; otherwise it is
the configured default `this.ttl`. -/
def __getTTL (st : StoreCfg) (now : Int) (s : Session α) : Int :=
  match s.expires with
  | some e => ceilDiv (e - now) 1000
  | none => st.ttl

/-- Embedding of `set`: computes `key` and the serialized value; when TTL is
disabled it issues `SET key value`; otherwise, when the computed TTL is
negative it issues `DEL key`; otherwise it issues the single command
`SET key value EX ttl`.  The result is the list of backend commands
issued. -/
def setCmds (sz : Serializer α) (st : StoreCfg) (now : Int) (sid : String)
    (s : Session α) : List RCmd :=
  let key := st.keyPrefix ++ sid
  let value := sz.stringify s
  if st.disableTTL then [RCmd.setCmd key value none]
  else
    let ttl := __getTTL st now s
    if ttl < 0 then [RCmd.delCmd [key]]
    else [RCmd.setCmd key value (some ttl)]

/-- Embedding of `touch`: when `disableTTL || disableTouch` holds it issues
no command; otherwise it issues `EXPIRE key ttl` with the TTL computed by
`__getTTL`. -/
def touchCmds (st : StoreCfg) (now : Int) (sid : String) (s : Session α) :
    List RCmd :=
  if st.disableTTL || st.disableTouch then []
  else [RCmd.expireCmd (st.keyPrefix ++ sid) (__getTTL st now s)]

/-- Embedding of one global single-character `String.replace` pass
(`.replace(/x/g, y)`): every occurrence of `c` is replaced by `r`. -/
def replaceChar (c : Char) (r : List Char) : List Char → List Char
  | [] => []
  | a :: as => (if a = c then r else [a]) ++ replaceChar c r as

/-- The glob metacharacters escaped by `__getAllKeys`, in source order. -/
def globMetas : List Char :=
  ['\\', '*', '?', '[', ']', '\x7b', '\x7d', '(', ')', '!']

/-- Whether a character is one of the escaped glob metacharacters. -/
def isGlobMeta (c : Char) : Bool := decide (c ∈ globMetas)

/-- Embedding of the escaping chain of `__getAllKeys`: the ten global
replaces applied in source order (backslash first, then the other nine
metacharacters, each replaced by a backslash followed by itself). -/
def escapePrefix (p : List Char) : List Char :=
  replaceChar '!' ['\\', '!']
    (replaceChar '(' ['\\', '(']
      (replaceChar ')' ['\\', ')']
        (replaceChar '\x7d' ['\\', '\x7d']
          (replaceChar '\x7b' ['\\', '\x7b']
            (replaceChar ']' ['\\', ']']
              (replaceChar '[' ['\\', '[']
                (replaceChar '?' ['\\', '?']
                  (replaceChar '*' ['\\', '*']
                    (replaceChar '\\' ['\\', '\\'] p)))))))))

/-- The SCAN match pattern built by `__getAllKeys`: the escaped configured
key prefix with `*` appended. -/
def globPattern (st : StoreCfg) : List Char :=
  escapePrefix st.keyPrefix.toList ++ ['*']

/-- Scans a character class body (the part after `[`), modelling the class
handling of the backend glob matcher: `\x` stands for the literal `x`,
`]` closes the class, `a-b` is a range, and any other character stands for
itself.  Returns whether `c` belongs to the class and the pattern remaining
after the closing bracket. -/
def classMatch (c : Char) : List Char → Bool → Bool × List Char
  | [], m => (m, [])
  | '\\' :: x :: rest, m => classMatch c rest (m || x == c)
  | ']' :: rest, m => (m, rest)
  | a :: '-' :: b :: rest, m =>
      classMatch c rest (m || (min a b ≤ c && c ≤ max a b))
  | a :: rest, m => classMatch c rest (m || a == c)

/-- Resolves a character class at the head of the remaining pattern `ps`
(the part after `[`): an optional leading `^` negates the membership test
computed by `classMatch`.  Returns the membership verdict for `c` and the
pattern remaining after the class. -/
def classTail (c : Char) (ps : List Char) : Bool × List Char :=
  match ps with
  | '^' :: t => ((classMatch c t false).1 = false, (classMatch c t false).2)
  | _ => classMatch c ps false

/-- Model of the glob matching the backend applies to the MATCH pattern of
SCAN (after the stringmatchlen algorithm): `*` matches any sequence, `?`
any single character, `[...]` a character class with optional leading `^`
negation, `\x` the literal `x`, and any other character itself; a pattern
exhausted against an empty remainder matches, and trailing `*` consume the
empty string.  This models the external backend; it is not code of the
repository. -/
def globMatch : List Char → List Char → Bool
  | [], s => s.isEmpty
  | p :: ps, [] => if p = '*' then globMatch ps [] else false
  | p :: ps, c :: s2 =>
    if p = '*' then globMatch ps (c :: s2) || globMatch (p :: ps) s2
    else if p = '?' then globMatch ps s2
    else if p = '[' then
      (if (classTail c ps).1 then globMatch (classTail c ps).2 s2 else false)
    else if p = '\\' then
      (match ps with
       | q :: ps2 => if q = c then globMatch ps2 s2 else false
       | [] => if p = c then globMatch ps s2 else false)
    else if p = c then globMatch ps s2 else false
termination_by p s => (s.length, p.length)
decreasing_by
  all_goals simp_wf
  all_goals simp [Prod.lex_iff]

/-- Embedding of `__scanKeys`, with the backend modelled by the list `rs` of
its successive SCAN replies `(nextCursor, keys)`.  Each recursive call
issues one SCAN command, recorded in the returned trace as
`(cursor, pattern, count)`, and consumes one reply; when the reply carries a
nonzero cursor the scan continues with that cursor, otherwise the
accumulated keys are returned.  `none` models a backend that stops
responding (the code would then never resolve). -/
def scanStep : Nat → List Char → Nat → List (Nat × List String) →
    Option (List (Nat × List Char × Nat) × List String)
  | _, _, _, [] => none
  | cursor, pat, cnt, (next, keys) :: rest =>
    if next ≠ 0 then
      (scanStep next pat cnt rest).map
        (fun pr => ((cursor, pat, cnt) :: pr.1, keys ++ pr.2))
    else some ([(cursor, pat, cnt)], keys)

/-- Embedding of `__getAllKeys`: builds the escaped pattern and runs
`__scanKeys(0, pattern, 100)`. -/
def __getAllKeys (st : StoreCfg) (rs : List (Nat × List String)) :
    Option (List (Nat × List Char × Nat) × List String) :=
  scanStep 0 (globPattern st) 100 rs

/-- Embedding of the commands issued by `clear`: it resolves the key set via
`__getAllKeys` and then issues the single command `DEL ...keys`, with the
resolved keys spread as arguments (also when there are none). -/
def clearRun (st : StoreCfg) (rs : List (Nat × List String)) :
    Option (List RCmd) :=
  (__getAllKeys st rs).map fun pr => [RCmd.delCmd pr.2]

/-- Embedding of the callback outcome of `clear`
(`__getAllKeys().then((keys) => void this.__sendCommand("DEL", ...keys))`):
the promise handed to the callback adapter resolves as soon as the key
enumeration does, and the result of the DEL command — the second argument
here — is discarded by the `void` operator. -/
def clearCallback (scanRes : Except String (List String))
    (delRes : Except String Nat) : Except String Unit :=
  match scanRes, delRes with
  | Except.error e, _ => Except.error e
  | Except.ok _, _ => Except.ok ()

/-- Embedding of the entry list built by `all` from the scanned keys and the
MGET reply: each key is paired positionally with its reply value, the key
prefix is sliced off, and the value — including an absent one, `none`,
which the code passes to `serializer.parse` through the non-null assertion
`values[idx]!` — is handed to the serializer.  An entry value `none` models
the absent backend value flowing into the parse call. -/
def allEntries (sz : Serializer α) (st : StoreCfg) (keys : List String)
    (values : List (Option String)) : List (String × Option (Session α)) :=
  List.zipWith
    (fun key v => (key.drop st.keyPrefix.length, v.map sz.parse)) keys values

/-- A faithful backend key-value state: an association list from keys to
stored strings, most recent binding first. -/
abbrev Backend : Type := List (String × String)

/-- Backend read: the most recently stored value for the key. -/
def bget (b : Backend) (k : String) : Option String :=
  (List.find? (fun kv => kv.1 == k) b).map Prod.snd

/-- Backend write: stores a binding for the key. -/
def bset (b : Backend) (k v : String) : Backend := (k, v) :: b

/-- A faithful backend executing one command: SET stores the value
(with or without expiry), DEL removes the named keys, and EXPIRE leaves the
value in place (modelling a TTL that has not elapsed). -/
def applyCmd (b : Backend) : RCmd → Backend
  | RCmd.setCmd k v _ => bset b k v
  | RCmd.delCmd ks => List.filter (fun kv => !(ks.contains kv.1)) b
  | RCmd.expireCmd _ _ => b

/-- A faithful backend executing a command sequence in order. -/
def applyCmds (b : Backend) (cs : List RCmd) : Backend := cs.foldl applyCmd b

/-- Embedding of `get` against a backend state: it reads
`prefix + sid`; a falsy reply (absent key, or the empty string) yields
`null` without invoking the serializer, and any other reply is parsed. -/
def getResult (sz : Serializer α) (st : StoreCfg) (b : Backend)
    (sid : String) : Option (Session α) :=
  match bget b (st.keyPrefix ++ sid) with
  | none => none
  | some v => if v = "" then none else some (sz.parse v)

/-- A concrete store configuration with the default settings. -/
def stD : StoreCfg :=
  { keyPrefix := "sess:", ttl := 86400, disableTTL := false,
    disableTouch := false }

/-- A concrete store configuration with TTL disabled. -/
def stDTTL : StoreCfg :=
  { keyPrefix := "sess:", ttl := 86400, disableTTL := true,
    disableTouch := false }

/-- A concrete serializer over numeric payloads, used by witnesses. -/
def natSz : Serializer Nat :=
  { stringify := fun s => String.mk (List.replicate s.data 'a')
  , parse := fun v => { expires := none, data := v.length } }

/-- A concrete session without cookie expiry. -/
def s0 : Session Nat := { expires := none, data := 5 }

/-- A concrete session whose cookie expired at time 0. -/
def sExp : Session Nat := { expires := some 0, data := 5 }

/-- Constructor options supplying ttl 0 and nothing else. -/
def optZero : StoreOptions :=
  { keyPrefix := none, ttl := some 0, disableTTL := none,
    disableTouch := none }

/-- One global single-character replace distributes over append. -/
theorem replaceChar_append (c : Char) (r xs ys : List Char) :
    replaceChar c r (xs ++ ys) = replaceChar c r xs ++ replaceChar c r ys := by
  induction xs with
  | nil => simp [replaceChar]
  | cons a as ih => simp [replaceChar, ih, List.append_assoc]

/-- The escaping chain distributes over append. -/
theorem escapePrefix_append (xs ys : List Char) :
    escapePrefix (xs ++ ys) = escapePrefix xs ++ escapePrefix ys := by
  simp [escapePrefix, replaceChar_append]

/-- The escaping chain processes the head character separately. -/
theorem escapePrefix_cons (a : Char) (p : List Char) :
    escapePrefix (a :: p) = escapePrefix [a] ++ escapePrefix p := by
  have h : a :: p = [a] ++ p := rfl
  rw [h, escapePrefix_append]

/-- On a single character the escaping chain yields a preceding backslash
exactly when the character is a glob metacharacter. -/
theorem escapePrefix_single (a : Char) :
    escapePrefix [a] = if isGlobMeta a then ['\\', a] else [a] := by
  by_cases hm : a ∈ globMetas
  · fin_cases hm <;> decide
  · have h0 : isGlobMeta a = false := by simp [isGlobMeta, hm]
    simp only [globMetas, List.mem_cons, List.mem_singleton, not_or] at hm
    obtain ⟨h1, h2, h3, h4, h5, h6, h7, h8, h9, h10⟩ := hm
    simp [escapePrefix, replaceChar, h0, h1, h2, h3, h4, h5, h6, h7, h8, h9,
      h10]

/-- The sequential replace chain equals a single pass that precedes every
glob metacharacter with a backslash. -/
theorem escapePrefix_flat (p : List Char) :
    escapePrefix p
      = p.flatMap (fun c => if isGlobMeta c then ['\\', c] else [c]) := by
  induction p with
  | nil => decide
  | cons a p ih => rw [escapePrefix_cons, escapePrefix_single, ih]; simp

/-- An empty pattern matches exactly the empty string. -/
theorem globMatch_nil_pat (s : List Char) : globMatch [] s = s.isEmpty :=
  globMatch.eq_1 s

/-- An escape sequence at the head of the pattern never matches an empty
string. -/
theorem globMatch_esc_nil (q : Char) (ps : List Char) :
    globMatch ('\\' :: q :: ps) [] = false := by
  rw [globMatch.eq_2, if_neg (by decide)]

/-- An escape sequence at the head of the pattern consumes exactly its
escaped character, literally. -/
theorem globMatch_esc_cons (q c : Char) (ps s2 : List Char) :
    globMatch ('\\' :: q :: ps) (c :: s2)
      = if q = c then globMatch ps s2 else false := by
  rw [globMatch.eq_3, if_neg (by decide), if_neg (by decide),
    if_neg (by decide), if_pos rfl]

/-- A non-star head never matches an empty string. -/
theorem globMatch_lit_nil (a : Char) (ps : List Char) (h1 : a ≠ '*') :
    globMatch (a :: ps) [] = false := by
  rw [globMatch.eq_2, if_neg h1]

/-- A head that is no metacharacter consumes exactly itself. -/
theorem globMatch_lit_cons (a c : Char) (ps s2 : List Char)
    (h1 : a ≠ '*') (h2 : a ≠ '?') (h3 : a ≠ '[') (h4 : a ≠ '\\') :
    globMatch (a :: ps) (c :: s2)
      = if a = c then globMatch ps s2 else false := by
  cases ps with
  | nil => rw [globMatch.eq_4, if_neg h1, if_neg h2, if_neg h3, if_neg h4]
  | cons q ps2 => rw [globMatch.eq_3, if_neg h1, if_neg h2, if_neg h3,
      if_neg h4]

/-- The pattern consisting of a single star matches every string. -/
theorem globMatch_star (s : List Char) : globMatch ['*'] s = true := by
  induction s with
  | nil => rw [globMatch.eq_2, if_pos rfl, globMatch_nil_pat]; rfl
  | cons c s2 ih => rw [globMatch.eq_4, if_pos rfl, ih]; simp

/-- The escaped pattern with a star appended matches exactly the strings
that literally begin with the original characters. -/
theorem matchEscaped (p : List Char) :
    ∀ s, (globMatch (escapePrefix p ++ ['*']) s = true ↔ p <+: s) := by
  induction p with
  | nil =>
    intro s
    have h0 : escapePrefix ([] : List Char) = [] := rfl
    rw [h0, List.nil_append, globMatch_star]
    simp only [true_iff]
    exact ⟨s, rfl⟩
  | cons a p ih =>
    intro s
    rw [escapePrefix_cons, escapePrefix_single]
    by_cases hm : isGlobMeta a = true
    · rw [if_pos hm]
      have hsh : (['\\', a] ++ escapePrefix p) ++ ['*']
          = '\\' :: a :: (escapePrefix p ++ ['*']) := by simp
      rw [hsh]
      cases s with
      | nil =>
        rw [globMatch_esc_nil]
        simp
      | cons c s2 =>
        rw [globMatch_esc_cons, List.cons_prefix_cons]
        by_cases hac : a = c
        · rw [if_pos hac, ih s2]; simp [hac]
        · rw [if_neg hac]; simp [hac]
    · rw [if_neg hm]
      have hmem : a ∉ globMetas := by
        intro hc; exact hm (by simp [isGlobMeta, hc])
      simp only [globMetas, List.mem_cons, List.mem_singleton, not_or] at hmem
      obtain ⟨h1, h2, h3, h4, h5, h6, h7, h8, h9, h10⟩ := hmem
      have hsh : ([a] ++ escapePrefix p) ++ ['*']
          = a :: (escapePrefix p ++ ['*']) := by simp
      rw [hsh]
      cases s with
      | nil =>
        rw [globMatch_lit_nil a _ h2]
        simp
      | cons c s2 =>
        rw [globMatch_lit_cons a c _ _ h2 h3 h4 h1, List.cons_prefix_cons]
        by_cases hac : a = c
        · rw [if_pos hac, ih s2]; simp [hac]
        · rw [if_neg hac]; simp [hac]

/-- Running the scan from any cursor against replies whose cursors stay
nonzero until a final zero-cursor round: the issued SCAN calls carry the
starting cursor followed by each returned cursor, all with the same pattern
and count, the keys of the consumed rounds are concatenated in order, and
the replies after the zero-cursor round are never consumed. -/
theorem scanStep_run (pat : List Char) (cnt : Nat)
    (rs1 : List (Nat × List String)) (ks0 : List String)
    (rest : List (Nat × List String)) :
    ∀ c, (∀ r ∈ rs1, r.1 ≠ 0) →
    scanStep c pat cnt (rs1 ++ (0, ks0) :: rest)
      = some ((c :: rs1.map Prod.fst).map (fun x => (x, pat, cnt)),
              (rs1.map Prod.snd).flatten ++ ks0) := by
  induction rs1 with
  | nil =>
    intro c _
    simp [scanStep]
  | cons hd tl ih =>
    intro c hne
    obtain ⟨n, ks⟩ := hd
    have hn : n ≠ 0 := hne (n, ks) (by simp)
    have htl : ∀ r ∈ tl, r.1 ≠ 0 := fun r hr => hne r (by simp [hr])
    rw [List.cons_append, scanStep, if_pos hn, ih n htl]
    simp [List.append_assoc]

/-- A backend read after a backend write of the same key returns the
written value. -/
theorem bget_bset (b : Backend) (k v : String) : bget (bset b k v) k = some v := by
  simp [bget, bset, List.find?]

/-- Claim C1: the key-enumeration routine escapes every glob metacharacter
in the configured key prefix (backslash, star, question mark, brackets,
braces, parentheses, exclamation mark) with a preceding backslash and
appends a star to form the SCAN match pattern, so the pattern matches
exactly the keys that literally begin with the prefix — metacharacters in
the prefix are never matched as wildcards. -/
theorem c1_pattern_escaped_and_literal (st : StoreCfg) (s : List Char) :
    globPattern st
      = (st.keyPrefix.toList.flatMap
          (fun c => if isGlobMeta c then ['\\', c] else [c])) ++ ['*'] ∧
    (globMatch (globPattern st) s = true ↔ st.keyPrefix.toList <+: s) := by
  constructor
  · rw [globPattern, escapePrefix_flat]
  · rw [globPattern]
    exact matchEscaped _ s

/-- Claim C2: the enumeration starts at cursor 0 with count hint 100,
issues each following SCAN with the cursor returned by the previous round
(same pattern and count), accumulates the returned keys in order with no
reordering or deduplication, and returns exactly when a round returns
cursor 0 — later replies are never consumed. -/
theorem c2_scan_protocol (st : StoreCfg) (rs1 rest : List (Nat × List String))
    (ks0 : List String) (h : ∀ r ∈ rs1, r.1 ≠ 0) :
    __getAllKeys st (rs1 ++ (0, ks0) :: rest)
      = some ((0 :: rs1.map Prod.fst).map (fun x => (x, globPattern st, 100)),
              (rs1.map Prod.snd).flatten ++ ks0) := by
  rw [__getAllKeys]
  exact scanStep_run _ _ _ _ _ 0 h

/-- Witness for C2 at a concrete reply sequence. -/
theorem c2_scan_protocol_witness :
    __getAllKeys stD
        ([(7, ["sess:a", "sess:b"])] ++ (0, ["sess:c"]) :: [(9, ["zz"])])
      = some ([(0, globPattern stD, 100), (7, globPattern stD, 100)],
              ["sess:a", "sess:b", "sess:c"]) := by
  have h := c2_scan_protocol stD [(7, ["sess:a", "sess:b"])] [(9, ["zz"])]
      ["sess:c"] (by decide)
  simpa using h

/-- Claim C3: the TTL computed from the session is the ceiling of
(expiry minus now) over 1000 when a cookie expiry is present and the
configured default otherwise; with TTL disabled, set writes the key
without expiry; with a negative computed TTL, set deletes the key and
writes nothing; otherwise set writes the serialized session with the
expiry in the same single backend command. -/
theorem c3_set_behavior (sz : Serializer α) (st : StoreCfg) (now : Int)
    (sid : String) (s : Session α) :
    (∀ e, s.expires = some e → __getTTL st now s = ceilDiv (e - now) 1000) ∧
    (s.expires = none → __getTTL st now s = st.ttl) ∧
    (st.disableTTL = true →
      setCmds sz st now sid s
        = [RCmd.setCmd (st.keyPrefix ++ sid) (sz.stringify s) none]) ∧
    (st.disableTTL = false → __getTTL st now s < 0 →
      setCmds sz st now sid s = [RCmd.delCmd [st.keyPrefix ++ sid]]) ∧
    (st.disableTTL = false → 0 ≤ __getTTL st now s →
      setCmds sz st now sid s
        = [RCmd.setCmd (st.keyPrefix ++ sid) (sz.stringify s)
            (some (__getTTL st now s))]) := by
  refine ⟨fun e he => by simp [__getTTL, he], fun he => by simp [__getTTL, he],
    fun hd => by simp [setCmds, hd], fun hd hlt => by simp [setCmds, hd, hlt],
    fun hd hge => by simp [setCmds, hd, not_lt.mpr hge]⟩

/-- Witness for C3: a default store writes with the default expiry. -/
theorem c3_set_behavior_witness :
    setCmds natSz stD 0 "a" s0
      = [RCmd.setCmd (stD.keyPrefix ++ "a") (natSz.stringify s0)
          (some (__getTTL stD 0 s0))] :=
  (c3_set_behavior natSz stD 0 "a" s0).2.2.2.2 rfl (by decide)

/-- Counterexample to claim C4: touch on a session whose cookie expired two
seconds ago issues EXPIRE with the negative TTL -2, so not every TTL passed
to the backend is non-negative. -/
theorem c4_ttl_counterexample :
    touchCmds stD 2000 "a" sExp = [RCmd.expireCmd ("sess:a") (-2)]
      ∧ ((-2 : Int) < 0) := by
  constructor
  · rfl
  · decide

/-- Claim C4 as amended: every TTL that set passes to the backend is a
non-negative integer, and with TTL disabled neither set nor touch sends a
TTL argument; touch, however, passes the computed TTL unchecked, which can
be negative when the session cookie has already expired. -/
theorem c4_ttl_invariant_amended (sz : Serializer α) (st : StoreCfg)
    (now : Int) (sid : String) (s : Session α) :
    (∀ t ∈ (setCmds sz st now sid s).flatMap cmdTTLs, 0 ≤ t) ∧
    (st.disableTTL = true → (setCmds sz st now sid s).flatMap cmdTTLs = []
       ∧ touchCmds st now sid s = []) ∧
    (touchCmds st now sid s = [] ∨
       touchCmds st now sid s
         = [RCmd.expireCmd (st.keyPrefix ++ sid) (__getTTL st now s)]) := by
  refine ⟨?_, fun hd => by simp [setCmds, touchCmds, hd, cmdTTLs], ?_⟩
  · intro t ht
    by_cases hd : st.disableTTL
    · simp [setCmds, hd, cmdTTLs] at ht
    · by_cases hlt : __getTTL st now s < 0
      · simp [setCmds, hd, hlt, cmdTTLs] at ht
      · simp [setCmds, hd, hlt, cmdTTLs] at ht
        omega
  · by_cases ht : st.disableTTL || st.disableTouch
    · exact Or.inl (by simp [touchCmds, ht])
    · exact Or.inr (by simp [touchCmds, ht])

/-- Witness for the amended C4: with TTL disabled, set sends no TTL
argument and touch sends nothing. -/
theorem c4_ttl_invariant_amended_witness :
    (setCmds natSz stDTTL 0 "a" s0).flatMap cmdTTLs = []
      ∧ touchCmds stDTTL 0 "a" s0 = [] :=
  (c4_ttl_invariant_amended natSz stDTTL 0 "a" s0).2.1 rfl

/-- Claim C5, evaluated at the failing input: when the multi-get reply for
an enumerated key is absent, the entry is not omitted — the key stays in
the result with the absent value handed to the serializer. -/
theorem c5_all_keeps_absent_value :
    allEntries natSz stD ["sess:a"] [none]
      = [("a", (none : Option (Session Nat)))] := rfl

/-- Counterexample to claim C6: with an empty resolved key set (the single
scan round returns cursor 0 and no keys) clear still issues a DEL command,
with no key arguments. -/
theorem c6_clear_empty_counterexample :
    clearRun stD [(0, [])] = some [RCmd.delCmd []] := rfl

/-- Claim C6 as amended: clear resolves the full key set via the scan
engine and issues exactly one batch delete command listing all resolved
keys — also when the resolved key set is empty, in which case the DEL
command carries no key arguments. -/
theorem c6_clear_single_batch_del (st : StoreCfg)
    (rs1 rest : List (Nat × List String)) (ks0 : List String)
    (h : ∀ r ∈ rs1, r.1 ≠ 0) :
    clearRun st (rs1 ++ (0, ks0) :: rest)
      = some [RCmd.delCmd ((rs1.map Prod.snd).flatten ++ ks0)] := by
  rw [clearRun, __getAllKeys, scanStep_run _ _ _ _ _ 0 h]
  rfl

/-- Witness for the amended C6 at a concrete reply sequence. -/
theorem c6_clear_single_batch_del_witness :
    clearRun stD [(0, ["sess:x"])] = some [RCmd.delCmd ["sess:x"]] := by
  simpa using c6_clear_single_batch_del stD [] [] ["sess:x"] (by simp)

/-- Claim C7: touch issues no backend command when touch is disabled and
also when TTL is disabled; otherwise it issues exactly one EXPIRE for the
prefixed key and never issues a write (SET) or delete (DEL) command. -/
theorem c7_touch_behavior (st : StoreCfg) (now : Int) (sid : String)
    (s : Session α) :
    (st.disableTouch = true → touchCmds st now sid s = []) ∧
    (st.disableTTL = true → touchCmds st now sid s = []) ∧
    (st.disableTouch = false → st.disableTTL = false →
      touchCmds st now sid s
        = [RCmd.expireCmd (st.keyPrefix ++ sid) (__getTTL st now s)]) ∧
    (∀ k v ex, RCmd.setCmd k v ex ∉ touchCmds st now sid s) ∧
    (∀ ks, RCmd.delCmd ks ∉ touchCmds st now sid s) := by
  refine ⟨fun h => by simp [touchCmds, h], fun h => by simp [touchCmds, h],
    fun h1 h2 => by simp [touchCmds, h1, h2], ?_, ?_⟩
  · intro k v ex
    by_cases ht : st.disableTTL || st.disableTouch <;> simp [touchCmds, ht]
  · intro ks
    by_cases ht : st.disableTTL || st.disableTouch <;> simp [touchCmds, ht]

/-- Witness for C7: an enabled default store issues exactly the EXPIRE. -/
theorem c7_touch_behavior_witness :
    touchCmds stD 0 "a" s0
      = [RCmd.expireCmd (stD.keyPrefix ++ "a") (__getTTL stD 0 s0)] :=
  (c7_touch_behavior stD 0 "a" s0).2.2.1 rfl rfl

/-- Claim C8, evaluated at the failing input: the callback of clear
resolves with success although the DEL command failed — the void operator
discards the DEL outcome, so the backend error is swallowed. -/
theorem c8_clear_swallows_del_error :
    clearCallback (Except.ok ["sess:a"]) (Except.error ("connection lost"))
      = Except.ok () := rfl

/-- Claim C9: against a faithful backend, with a serializer whose parse
inverts stringify on the session, a non-empty serialization and a TTL that
has not elapsed (or TTL disabled), get after set returns the session, and
the single write targets the prefixed key, so the identifier round-trips
unchanged. -/
theorem c9_set_get_roundtrip (sz : Serializer α) (st : StoreCfg) (now : Int)
    (sid : String) (s : Session α) (b : Backend)
    (hser : sz.parse (sz.stringify s) = s)
    (hne : sz.stringify s ≠ "")
    (httl : st.disableTTL = true ∨ 0 ≤ __getTTL st now s) :
    getResult sz st (applyCmds b (setCmds sz st now sid s)) sid = some s ∧
    (∃ ex, setCmds sz st now sid s
        = [RCmd.setCmd (st.keyPrefix ++ sid) (sz.stringify s) ex]) := by
  have hset : ∃ ex, setCmds sz st now sid s
      = [RCmd.setCmd (st.keyPrefix ++ sid) (sz.stringify s) ex] := by
    by_cases hd : st.disableTTL
    · exact ⟨none, by simp [setCmds, hd]⟩
    · rcases httl with h | hge
      · exact absurd h (by simp [hd])
      · exact ⟨some (__getTTL st now s),
          by simp [setCmds, hd, not_lt.mpr hge]⟩
  obtain ⟨ex, hex⟩ := hset
  refine ⟨?_, ⟨ex, hex⟩⟩
  rw [hex]
  simp [applyCmds, applyCmd, getResult, bget_bset, hser, hne]

/-- Witness for C9 at a concrete store, session and serializer. -/
theorem c9_set_get_roundtrip_witness :
    getResult natSz stD (applyCmds [] (setCmds natSz stD 0 "a" s0)) "a"
      = some s0 :=
  (c9_set_get_roundtrip natSz stD 0 "a" s0 [] (by decide) (by decide)
    (Or.inr (by decide))).1

/-- Claim C10: constructing the store with ttl 0 yields the default 86400
(a zero default TTL can never be configured), and get returns null without
invoking the serializer — for every serializer — when the backend returns
the empty string for the key. -/
theorem c10_zero_ttl_and_empty_get :
    (mkStore optZero).ttl = 86400 ∧
    (∀ o : StoreOptions, (mkStore o).ttl ≠ 0) ∧
    (∀ (sz : Serializer Nat) (st : StoreCfg) (b : Backend) (sid : String),
      bget b (st.keyPrefix ++ sid) = some ("") → getResult sz st b sid = none) := by
  refine ⟨rfl, ?_, ?_⟩
  · intro o
    simp only [mkStore]
    cases ho : o.ttl with
    | none => simp
    | some t =>
      by_cases h0 : t = 0 <;> simp [h0]
  · intro sz st b sid h
    simp [getResult, h]

/-- Witness for C10: a backend holding the empty string for the key makes
get return null. -/
theorem c10_zero_ttl_and_empty_get_witness :
    getResult natSz stD [("sess:a", "")] "a" = none :=
  c10_zero_ttl_and_empty_get.2.2 natSz stD [("sess:a", "")] "a" (by decide)
